import Mathlib

/-!
Verification development for the naming-resolution and schema-wrapping layer
of the api_factory code generator (src/api_factory/schema/naming.py and
src/api_factory/schema/wrappers.py).

The Python source is shallowly embedded: pure functions become Lean functions,
raised exceptions become `Except PyErr`, and Python-specific semantics
(regex anchoring and greediness, `str` truthiness, `set` deduplication, the
TypeError `os.path.commonprefix` raises when handed a set) are embedded
explicitly, following the source as executed on the interpreters able to run
it (Python 3.6+, required by its f-strings and dataclasses).
-/

/-- A raised Python exception, as observed by the caller of the naming pass. -/
inductive PyErr where
  | attributeError (attr : String)
  | valueError (msg : String)
  | typeError (msg : String)
deriving DecidableEq, Repr

/-- Message of the ValueError raised when packages disagree below the version
(naming.py line 93). -/
def ambiguousMsg : String :=
  "All protos must have the same proto package up to and including the version."

/-- Message of the ValueError raised on conflicting metadata annotations
(naming.py line 117). -/
def conflictMsg : String :=
  "If the google.api.metadata annotation is provided in more than one file, it must be consistent."

/-! ## Character classes of the naming regex (naming.py lines 77-81)

The pattern is built from the character classes `[a-z0-9_.]` (namespace
segment characters including the separator) and `[a-z0-9_]` (name
characters). -/

/-- Characters matched by the class `[a-z0-9_.]` of the namespace group. -/
def isNsChar (c : Char) : Bool := c.isLower || c.isDigit || c == '_' || c == '.'

/-- Characters matched by the class `[a-z0-9_]` of the name group. -/
def isNameChar (c : Char) : Bool := c.isLower || c.isDigit || c == '_'

/-! ## The version sub-pattern `v[0-9]+(p[0-9]+)?((alpha|beta|test)[0-9])*`

Matched greedily; each piece is optional except the leading `v` and at least
one digit.  The function returns the matched characters and the rest. -/

/-- Consume the star `((alpha|beta|test)[0-9])*`: repeatedly match one of the
three literal words followed by a single digit, greedily. -/
def vSuffixStar (l : List Char) : List Char × List Char :=
  match l with
  | 'a' :: 'l' :: 'p' :: 'h' :: 'a' :: d :: t =>
      if d.isDigit then
        let (m, r) := vSuffixStar t
        ('a' :: 'l' :: 'p' :: 'h' :: 'a' :: d :: m, r)
      else ([], l)
  | 'b' :: 'e' :: 't' :: 'a' :: d :: t =>
      if d.isDigit then
        let (m, r) := vSuffixStar t
        ('b' :: 'e' :: 't' :: 'a' :: d :: m, r)
      else ([], l)
  | 't' :: 'e' :: 's' :: 't' :: d :: t =>
      if d.isDigit then
        let (m, r) := vSuffixStar t
        ('t' :: 'e' :: 's' :: 't' :: d :: m, r)
      else ([], l)
  | _ => ([], l)
termination_by l.length
decreasing_by all_goals (simp; omega)

/-- Match the version body `v[0-9]+(p[0-9]+)?((alpha|beta|test)[0-9])*` at the
head of the list; returns the matched characters, or `none` when the body does
not match (then the enclosing optional group is skipped). -/
def matchVersionBody (l : List Char) : Option (List Char) :=
  match l with
  | 'v' :: t =>
      let digits := t.takeWhile Char.isDigit
      if digits = [] then none
      else
        let rest1 := t.drop digits.length
        let (pPart, rest2) :=
          match rest1 with
          | 'p' :: t2 =>
              let d2 := t2.takeWhile Char.isDigit
              if d2 = [] then (([] : List Char), rest1)
              else ('p' :: d2, t2.drop d2.length)
          | _ => ([], rest1)
        let (star, _) := vSuffixStar rest2
        some ('v' :: digits ++ pPart ++ star)
  | _ => none

/-- Attempt the optional group `(\.(?P<version>v...))?` at the position after
the name: a literal dot followed by the version body. -/
def versionAt (l : List Char) : Option (List Char) :=
  match l with
  | '.' :: t => matchVersionBody t
  | _ => none

/-- The three named captures of the naming regex (naming.py lines 77-81). -/
structure ReMatch where
  namespaceGrp : Option String
  nameGrp : String
  versionGrp : Option String
deriving DecidableEq, Repr

/-- Greedy choice of the namespace/name boundary inside the maximal
`[a-z0-9_.]` run `r`: the largest index `k ≥ 1` such that `r` has a dot at
`k` whose successor (still inside `r`) is not a dot.  The inner `[a-z0-9_.]+`
is then `r.take k`, the separating dot is at `k`, and the name starts at
`k+1`.  `none` when the optional namespace group cannot participate. -/
def dotBoundary (r : List Char) : Option Nat :=
  ((List.range r.length).filter (fun k =>
    decide (1 ≤ k) && (r.get? k == some '.') &&
      (match r.get? (k+1) with
       | some c => c != '.'
       | none => false))).getLast?

/-- Try to match the naming pattern anchored at the head of `l`, with Python's
greedy backtracking semantics: the optional namespace group takes the longest
prefix `inner ++ dot` that still leaves a name character; otherwise the name
group matches directly; the version group is attempted after the name and
skipped on failure (the pattern has no end anchor). -/
def tryMatchAt (l : List Char) : Option ReMatch :=
  let r := l.takeWhile isNsChar
  match dotBoundary r with
  | some k =>
      let ns := r.take (k+1)
      let nm := (r.drop (k+1)).takeWhile isNameChar
      some { namespaceGrp := some (String.mk ns)
             nameGrp := String.mk nm
             versionGrp := (versionAt (l.drop (k + 1 + nm.length))).map String.mk }
  | none =>
      match l with
      | c :: _ =>
          if isNameChar c then
            let nm := l.takeWhile isNameChar
            some { namespaceGrp := none
                   nameGrp := String.mk nm
                   versionGrp := (versionAt (l.drop nm.length)).map String.mk }
          else none
      | [] => none

/-- Search the naming pattern in a string (naming.py lines 77-81).  The
pattern begins with the start anchor `^` (and `re.MULTILINE` is not set), so
`re.search` can only ever match at position zero: the search is exactly the
anchored attempt. -/
def reSearchNaming (s : String) : Option ReMatch := tryMatchAt s.data

/-! ## Python string comparison and os.path.commonprefix

The explicit string comparison is used by the `sorted` call of
`Service.pb2_modules` (wrappers.py line 198); the commonprefix embedding
models the call at naming.py line 70, whose argument is a set. -/

/-- Python `<` on two characters: comparison of the code points. -/
def charLtb (a b : Char) : Bool := Nat.blt a.toNat b.toNat

/-- Python `<` on two strings, as lists of characters: lexicographic
comparison by code point. -/
def pyStrLtChars : List Char → List Char → Bool
  | [], _ :: _ => true
  | _, [] => false
  | a :: as, b :: bs =>
      if charLtb a b then true
      else if charLtb b a then false
      else pyStrLtChars as bs

/-- Python `<` on two strings. -/
def pyStrLt (a b : String) : Bool := pyStrLtChars a.data b.data

/-- Message of the TypeError raised when the set of proto packages is passed
to `os.path.commonprefix` (genericpath probes `m[0]`, and a set does not
support indexing). -/
def setSubscriptMsg : String := "set object is not subscriptable"

/-- Embedding of `os.path.commonprefix` as called at naming.py line 70, where
the argument is the SET of proto packages.  CPython's genericpath
implementation first returns the empty string for an empty argument
(`if not m: return ''`); for a non-empty argument it then evaluates `m[0]`
(the os.fspath-coercion probe introduced in Python 3.6), which raises
TypeError for a set, because sets do not support subscription.  The source
file requires Python 3.6+ (f-strings; the dataclasses module), so on every
interpreter that can run it this call raises TypeError for every non-empty
input; the remaining lines of commonprefix (lexicographic min/max and the
character loop) are unreachable from this call site. -/
def pyCommonPfx (m : List String) : Except PyErr String :=
  if m = [] then .ok "" else .error (.typeError setSubscriptMsg)

/-- Python `'x.y'.split('.')`: split on every dot, keeping empty pieces
(so `"a.".split` gives the piece list `a` then the empty piece). -/
def splitDot (s : String) : List String :=
  (s.data.foldr
    (fun c acc =>
      if c = '.' then [] :: acc
      else
        match acc with
        | a :: r => (c :: a) :: r
        | [] => [[c]])
    [[]]).map String.mk

/-- Python `str.capitalize`: upper-case the first character, lower-case the
rest. -/
def pyCapitalize (s : String) : String :=
  match s.data with
  | [] => ""
  | c :: cs => String.mk (c.toUpper :: cs.map Char.toLower)

/-! ## NamingBase and the naming pass (naming.py) -/

/-- Naming data for a proto file or metadata annotation (naming.py lines
26-33).  `version` is `none` for Python `None` (the regex group that did not
participate) and `some s` for a string.  The Python field name `namespace` is
a Lean keyword, hence the trailing underscore. -/
structure NamingBase where
  name : String
  namespace_ : List String
  version : Option String
  product_name : String
  product_url : String
deriving DecidableEq, Repr

/-- Python truthiness of the `version` field: `None` and the empty string are
falsy. -/
def pyTruthyVersion : Option String → Bool
  | none => false
  | some s => s ≠ ""

/-- Python truthiness of a `NamingBase` instance: the class defines neither a
bool nor a len dunder, so every instance is truthy.  (This is the check
`if naming:` at naming.py line 111; `Naming` defines a bool dunder but the
collected records are `NamingBase` instances, which do not inherit it.) -/
def NamingBase.pyTruthy (_ : NamingBase) : Bool := true

/-- The `google.api.metadata` file annotation (consumed at naming.py lines
103-110): explicit package name/namespace and product branding. -/
structure MetadataAnn where
  package_name : String
  package_namespace : List String
  product_name : String
  product_url : String
deriving DecidableEq, Repr

/-- The empty metadata annotation: proto3 returns a default instance when the
extension is absent from a file. -/
def emptyMetadataAnn : MetadataAnn :=
  { package_name := "", package_namespace := [], product_name := "", product_url := "" }

/-- A file descriptor as consumed by the naming pass: its proto package and
its (possibly default/empty) metadata annotation. -/
structure FileDescriptorProto where
  package : String
  metadata : MetadataAnn
deriving DecidableEq, Repr

/-- A file descriptor with the given package and no metadata annotation. -/
def mkFile (p : String) : FileDescriptorProto :=
  { package := p, metadata := emptyMetadataAnn }

/-- The per-file metadata record (naming.py lines 104-110): name is
`meta.package_name or meta.product_name` (Python `or` takes the second
operand when the first is empty), version is the empty string. -/
def metadataRecord (fd : FileDescriptorProto) : NamingBase :=
  { name := if fd.metadata.package_name ≠ "" then fd.metadata.package_name
            else fd.metadata.product_name
    namespace_ := fd.metadata.package_namespace
    version := some ""
    product_name := fd.metadata.product_name
    product_url := fd.metadata.product_url }

/-- Python set semantics for a traversal that inserts values: distinct values
in first-insertion order.  Only cardinality and membership of the result are
consumed, so the iteration order of the CPython set is immaterial. -/
def pyDistinct {α : Type} [DecidableEq α] (l : List α) : List α :=
  l.foldl (fun acc x => if x ∈ acc then acc else acc ++ [x]) []

/-- The distinct proto packages of the input files (naming.py line 69). -/
def distinctPackages (files : List FileDescriptorProto) : List String :=
  pyDistinct (files.map FileDescriptorProto.package)

/-- The root package computation: `os.path.commonprefix` of the set of
distinct proto packages (naming.py line 70).  It raises TypeError for every
non-empty input set and yields the empty string for an empty one. -/
def rootPackage (files : List FileDescriptorProto) : Except PyErr String :=
  pyCommonPfx (distinctPackages files)

/-- The package-derived naming record (naming.py lines 77-88).  A root package
the pattern does not match at all makes `re.search` return `None` and the
`.groupdict()` call raise AttributeError; a match without the optional
namespace group makes `match['namespace'].split('.')` raise AttributeError. -/
def packageInfo (root : String) : Except PyErr NamingBase :=
  match reSearchNaming root with
  | none => .error (.attributeError "groupdict")
  | some m =>
      match m.namespaceGrp with
      | none => .error (.attributeError "split")
      | some ns =>
          .ok { name := pyCapitalize m.nameGrp
                namespace_ := (splitDot ns).map pyCapitalize
                version := m.versionGrp
                product_name := pyCapitalize m.nameGrp
                product_url := "" }

/-- Collect the metadata records into a set (naming.py lines 101-112).  The
guard `if naming:` uses `NamingBase.pyTruthy`, which is constantly true, so
every file contributes a record (files without an annotation contribute the
all-empty record, deduplicated to one element). -/
def collectMetadata (files : List FileDescriptorProto) : List NamingBase :=
  files.foldl
    (fun acc fd =>
      let naming := metadataRecord fd
      if naming.pyTruthy then
        if naming ∈ acc then acc else acc ++ [naming]
      else acc)
    []

/-- Field-wise merge of the package-derived record with the single metadata
record (naming.py lines 122-130): each field is overwritten by the metadata
value where that value is truthy. -/
def mergeNaming (pkg m : NamingBase) : NamingBase :=
  { name := if m.name ≠ "" then m.name else pkg.name
    namespace_ := if m.namespace_ ≠ [] then m.namespace_ else pkg.namespace_
    version := if pyTruthyVersion m.version then m.version else pkg.version
    product_name := if m.product_name ≠ "" then m.product_name else pkg.product_name
    product_url := if m.product_url ≠ "" then m.product_url else pkg.product_url }

/-- The whole `Naming.__init__` pass (naming.py lines 47-130): compute the
common package prefix (which raises TypeError for every non-empty input,
since the set of packages is passed to `os.path.commonprefix`), derive the
package record from it, check the version/package consistency, collect and
check the metadata records, and merge. -/
def buildNaming (files : List FileDescriptorProto) : Except PyErr NamingBase :=
  let pkgs := distinctPackages files
  match pyCommonPfx pkgs with
  | .error e => .error e
  | .ok root =>
      match packageInfo root with
      | .error e => .error e
      | .ok pkg =>
          if pyTruthyVersion pkg.version = false ∧ pkgs.length > 1 then
            .error (.valueError ambiguousMsg)
          else
            let metas := collectMetadata files
            if metas.length > 1 then .error (.valueError conflictMsg)
            else
              match metas with
              | [] => .ok pkg
              | m :: _ => .ok (mergeNaming pkg m)

/-! ## Naming.__bool__ (naming.py lines 132-136)

The body is `any([getattr(self, k) for k in dataclasses.fields(self).keys()])`.
`dataclasses.fields` returns a tuple of field-descriptor objects, and the
tuple type defines no `keys` attribute, so the attribute lookup raises
AttributeError before anything else runs. -/

/-- The names of the five dataclass fields of `NamingBase`/`Naming`, in
declaration order (what `dataclasses.fields` describes). -/
def dataclassFieldNames : List String :=
  ["name", "namespace", "version", "product_name", "product_url"]

/-- Attribute lookup of `keys` on a Python tuple: the tuple type has no such
attribute, so the lookup raises AttributeError unconditionally. -/
def pyTupleKeys (_ : List String) : Except PyErr (List String) :=
  .error (.attributeError "keys")

/-- Python truthiness of the field named `k` of a naming record (what the
loop body `getattr(self, k)` would test if it were reached). -/
def getattrTruthy (n : NamingBase) (k : String) : Bool :=
  if k = "name" then n.name ≠ ""
  else if k = "namespace" then n.namespace_ ≠ []
  else if k = "version" then pyTruthyVersion n.version
  else if k = "product_name" then n.product_name ≠ ""
  else if k = "product_url" then n.product_url ≠ ""
  else false

/-- `Naming.__bool__` as written (naming.py lines 132-136): first evaluate
`dataclasses.fields(self).keys()`, then test each field for truthiness. -/
def namingPyBool (n : NamingBase) : Except PyErr Bool := do
  let ks ← pyTupleKeys dataclassFieldNames
  pure (ks.any (getattrTruthy n))

/-! ## Entity wrappers (wrappers.py)

The wrapper dataclasses live in the `Schema` namespace (the Python module
api_factory.schema.wrappers); in particular `Field` would otherwise collide
with an unrelated Mathlib name. -/

namespace Schema

/-- Modelled from the spec: the per-entity metadata record supplied by the
upstream parser (api_factory.schema.metadata is not part of the given
sources).  The spec says every entity carries a `meta` record with a
documentation string and a fully-qualified address, and the address exposes
the declaring file's package path (an ordered sequence of segments) and its
generated-code module name. -/
structure Address where
  package : List String
  module : String
deriving DecidableEq, Repr

/-- Modelled from the spec: the `meta` record attached to each wrapped
declaration (documentation plus fully-qualified address). -/
structure Metadata where
  address : Address
  doc : String
deriving DecidableEq, Repr

/-- Raw field declaration (relevant attributes only). -/
structure FieldDescriptorProto where
  name : String
  number : Nat
deriving DecidableEq, Repr

/-- Raw message declaration (relevant attributes only). -/
structure DescriptorProto where
  name : String
deriving DecidableEq, Repr

/-- Raw enum-value declaration. -/
structure EnumValueDescriptorProto where
  name : String
  number : Nat
deriving DecidableEq, Repr

/-- Raw enum declaration. -/
structure EnumDescriptorProto where
  name : String
deriving DecidableEq, Repr

/-- The `google.api.http` annotation attached to a method: one verb field is
populated with the path template, the rest are empty strings (the proto3
default when absent). -/
structure HttpRule where
  get : String
  post : String
  body : String
deriving DecidableEq, Repr

/-- Method options carrying the http extension (an absent extension is the
default, all-empty rule). -/
structure MethodOptions where
  http : HttpRule
deriving DecidableEq, Repr

/-- Raw method declaration. -/
structure MethodDescriptorProto where
  name : String
  options : MethodOptions
deriving DecidableEq, Repr

/-- Service options carrying the default-host and oauth extensions. -/
structure ServiceOptions where
  default_host : String
  oauth_scopes : List String
deriving DecidableEq, Repr

/-- Raw service declaration. -/
structure ServiceDescriptorProto where
  name : String
  options : ServiceOptions
deriving DecidableEq, Repr

/-- Description of a field (wrappers.py lines 42-49). -/
structure Field where
  field_pb : FieldDescriptorProto
  meta : Metadata
deriving DecidableEq, Repr

/-- Description of a message (wrappers.py lines 52-70). -/
structure MessageType where
  message_pb : DescriptorProto
  fields : List (String × Field)
  meta : Metadata
deriving DecidableEq, Repr

/-- Description of an enum value (wrappers.py lines 73-80). -/
structure EnumValueType where
  enum_value_pb : EnumValueDescriptorProto
  meta : Metadata
deriving DecidableEq, Repr

/-- Description of an enum (wrappers.py lines 83-91). -/
structure EnumType where
  enum_pb : EnumDescriptorProto
  values : List EnumValueType
  meta : Metadata
deriving DecidableEq, Repr

/-- Description of a method (wrappers.py lines 94-118).  The optional
long-running-operation references default to Python `None`. -/
structure Method where
  method_pb : MethodDescriptorProto
  input : MessageType
  output : MessageType
  lro_payload : Option MessageType
  lro_metadata : Option MessageType
  meta : Metadata
deriving DecidableEq, Repr

/-- Description of a service (wrappers.py lines 121-129). -/
structure Service where
  service_pb : ServiceDescriptorProto
  methods : List (String × Method)
  meta : Metadata
deriving DecidableEq, Repr

/-- `MessageType.pb2_module` (wrappers.py lines 62-65): the address module
suffixed with `_pb2`. -/
def MessageType.pb2_module (m : MessageType) : String :=
  m.meta.address.module ++ "_pb2"

/-! ## Method.field_headers (wrappers.py lines 107-113)

The extraction pattern is a literal opening brace, a capture of one `[a-z]`
character followed by one or more word-or-dot characters, then `=`.  Since
`=` is outside the repeated class, the greedy repetition simply runs to the
first non-class character, which must then be `=`; `re.findall` scans left to
right, resuming after the `=` of each match and advancing one character on
failure. -/

/-- The literal opening-brace character of the extraction pattern. -/
def braceOpen : Char := Char.ofNat 123

/-- Characters of the repeated class of the extraction pattern (`\w` plus
dot; ASCII word characters, which is all the source's inputs use). -/
def isWordDot (c : Char) : Bool := c.isAlpha || c.isDigit || c == '_' || c == '.'

/-- Scan for every match of the extraction pattern, in order, returning the
captured groups.  The scanner resumes after the `=` of a successful match and
advances one position on failure; the recursion is driven by a fuel counter
bounding the number of remaining scan steps (every step strictly shortens the
list, so `l.length` steps always suffice). -/
def findHeadersAux (fuel : Nat) (l : List Char) : List String :=
  match fuel, l with
  | 0, _ => []
  | _, [] => []
  | fuel + 1, c :: rest =>
    if c = braceOpen then
      match rest with
      | [] => []
      | d :: rest2 =>
        let run := rest2.takeWhile isWordDot
        if d.isLower ∧ run ≠ [] ∧ (rest2.drop run.length).head? = some '=' then
          String.mk (d :: run) :: findHeadersAux fuel (rest2.drop (run.length + 1))
        else findHeadersAux fuel (d :: rest2)
    else findHeadersAux fuel rest

/-- The source's `re.findall` of the extraction pattern over the GET path
template (wrappers.py line 112). -/
def findHeaders (l : List Char) : List String := findHeadersAux l.length l

/-- Modelled from the spec claim: the extraction pattern as the claim states
it, with a star instead of a plus after the leading lowercase letter (so a
single-letter template variable also matches).  Used only to compare the
claimed pattern with the source's pattern. -/
def findHeadersClaimStarAux (fuel : Nat) (l : List Char) : List String :=
  match fuel, l with
  | 0, _ => []
  | _, [] => []
  | fuel + 1, c :: rest =>
    if c = braceOpen then
      match rest with
      | [] => []
      | d :: rest2 =>
        let run := rest2.takeWhile isWordDot
        if d.isLower ∧ (rest2.drop run.length).head? = some '=' then
          String.mk (d :: run) :: findHeadersClaimStarAux fuel (rest2.drop (run.length + 1))
        else findHeadersClaimStarAux fuel (d :: rest2)
    else findHeadersClaimStarAux fuel rest

/-- The claimed pattern's findall over a path template. -/
def findHeadersClaimStar (l : List Char) : List String :=
  findHeadersClaimStarAux l.length l

/-- `Method.field_headers` (wrappers.py lines 107-113): when the http rule's
GET path is truthy (non-empty), extract the template variables from it;
otherwise the empty sequence. -/
def Method.field_headers (m : Method) : List String :=
  if m.method_pb.options.http.get ≠ ""
  then findHeaders m.method_pb.options.http.get.data
  else []

/-! ## Service.host (wrappers.py lines 131-140) -/

/-- The placeholder returned for an unset default host.  Modelled from the
spec for the missing utils module: `utils.Placeholder` is a sentinel display
string (the spec's open question records that the source's placeholder is a
string value, not a typed absent marker). -/
def placeholderHost : String := "<<< SERVICE ADDRESS >>>"

/-- `Service.host`: the default-host annotation when truthy, otherwise the
placeholder. -/
def Service.host (s : Service) : String :=
  if s.service_pb.options.default_host ≠ ""
  then s.service_pb.options.default_host
  else placeholderHost

/-! ## Service.pb2_modules (wrappers.py lines 161-198) -/

/-- The (package, pb2 module) pairs one method inserts into the answer set:
request and response modules, then the long-running payload and metadata
modules when those references are set (Python `None` is falsy, a
`MessageType` instance is truthy). -/
def methodPairs (m : Method) : List (String × String) :=
  [(String.intercalate "." m.input.meta.address.package, m.input.pb2_module),
   (String.intercalate "." m.output.meta.address.package, m.output.pb2_module)]
  ++ (match m.lro_payload with
      | some p => [(String.intercalate "." p.meta.address.package, p.pb2_module)]
      | none => [])
  ++ (match m.lro_metadata with
      | some p => [(String.intercalate "." p.meta.address.package, p.pb2_module)]
      | none => [])

/-- Every pair inserted into the answer set, iterating the service's methods
in mapping order. -/
def Service.collectedPairs (s : Service) : List (String × String) :=
  (s.methods.map Prod.snd).flatMap methodPairs

/-- Strict ordering of (package, module) pairs: Python tuple comparison,
package first, then module. -/
def pairLt (a b : String × String) : Bool :=
  pyStrLt a.1 b.1 || (a.1 == b.1 && pyStrLt a.2 b.2)

/-- Insert a pair into a strictly sorted duplicate-free list, keeping it
strictly sorted and duplicate-free. -/
def insertPair (x : String × String) : List (String × String) → List (String × String)
  | [] => [x]
  | y :: ys =>
      if pairLt x y then x :: y :: ys
      else if x = y then y :: ys
      else y :: insertPair x ys

/-- Embedding of `sorted(set(l))` for pairs of strings: the unique strictly
ascending enumeration of the distinct values of `l`. -/
def pySortedSet (l : List (String × String)) : List (String × String) :=
  l.foldl (fun acc x => insertPair x acc) []

/-- `Service.pb2_modules` (wrappers.py lines 161-198): the sorted,
deduplicated (package, pb2 module) pairs over all methods. -/
def Service.pb2_modules (s : Service) : List (String × String) :=
  pySortedSet s.collectedPairs

/-- Decidable test that two lists have the same members. -/
def listEqMem (l₁ l₂ : List (String × String)) : Bool :=
  l₁.all (· ∈ l₂) && l₂.all (· ∈ l₁)

/-! ## Wrapping constructors (for the idempotence claim)

Each entity wrapper is constructed by the dataclass constructor from the raw
declaration plus the metadata record; dataclass equality compares the
declared fields pairwise. -/

/-- Construct a `Field` wrapper. -/
def wrapField (pb : FieldDescriptorProto) (meta : Metadata) : Field :=
  { field_pb := pb, meta := meta }

/-- Construct a `MessageType` wrapper. -/
def wrapMessageType (pb : DescriptorProto) (fields : List (String × Field))
    (meta : Metadata) : MessageType :=
  { message_pb := pb, fields := fields, meta := meta }

/-- Construct an `EnumValueType` wrapper. -/
def wrapEnumValueType (pb : EnumValueDescriptorProto) (meta : Metadata) : EnumValueType :=
  { enum_value_pb := pb, meta := meta }

/-- Construct an `EnumType` wrapper. -/
def wrapEnumType (pb : EnumDescriptorProto) (values : List EnumValueType)
    (meta : Metadata) : EnumType :=
  { enum_pb := pb, values := values, meta := meta }

/-- Construct a `Method` wrapper. -/
def wrapMethod (pb : MethodDescriptorProto) (input output : MessageType)
    (lro_payload lro_metadata : Option MessageType) (meta : Metadata) : Method :=
  { method_pb := pb, input := input, output := output,
    lro_payload := lro_payload, lro_metadata := lro_metadata, meta := meta }

/-- Construct a `Service` wrapper. -/
def wrapService (pb : ServiceDescriptorProto) (methods : List (String × Method))
    (meta : Metadata) : Service :=
  { service_pb := pb, methods := methods, meta := meta }

/-- Python dataclass equality for `Field`: field-wise comparison. -/
def Field.dcEq (a b : Field) : Bool :=
  decide (a.field_pb = b.field_pb) && decide (a.meta = b.meta)

/-- Python dataclass equality for `MessageType`. -/
def MessageType.dcEq (a b : MessageType) : Bool :=
  decide (a.message_pb = b.message_pb) && decide (a.fields = b.fields)
    && decide (a.meta = b.meta)

/-- Python dataclass equality for `EnumValueType`. -/
def EnumValueType.dcEq (a b : EnumValueType) : Bool :=
  decide (a.enum_value_pb = b.enum_value_pb) && decide (a.meta = b.meta)

/-- Python dataclass equality for `EnumType`. -/
def EnumType.dcEq (a b : EnumType) : Bool :=
  decide (a.enum_pb = b.enum_pb) && decide (a.values = b.values)
    && decide (a.meta = b.meta)

/-- Python dataclass equality for `Method`. -/
def Method.dcEq (a b : Method) : Bool :=
  decide (a.method_pb = b.method_pb) && decide (a.input = b.input)
    && decide (a.output = b.output) && decide (a.lro_payload = b.lro_payload)
    && decide (a.lro_metadata = b.lro_metadata) && decide (a.meta = b.meta)

/-- Python dataclass equality for `Service`. -/
def Service.dcEq (a b : Service) : Bool :=
  decide (a.service_pb = b.service_pb) && decide (a.methods = b.methods)
    && decide (a.meta = b.meta)

end Schema

/-! ## Concrete inputs used by the theorems below -/

/-- A single file with package `a.b` and a metadata annotation carrying a
product name and url. -/
def c1Files : List FileDescriptorProto :=
  [{ package := "a.b"
     metadata := { package_name := "", package_namespace := [],
                   product_name := "Acme", product_url := "u" } }]

/-- A sample fully-populated naming record (the value the merge step would
assemble for `c1Files` if the pass ever reached it). -/
def c1Merged : NamingBase :=
  { name := "Acme", namespace_ := ["A", ""], version := none,
    product_name := "Acme", product_url := "u" }

/-- Two files with the same package `a.b`; exactly one carries a non-empty
metadata annotation, the other carries none. -/
def c2Files : List FileDescriptorProto :=
  [{ package := "a.b"
     metadata := { package_name := "", package_namespace := [],
                   product_name := "Acme", product_url := "" } },
   mkFile "a.b"]

/-- Truthiness of a whole metadata record in the sense intended by the source
comment and the spec: some field is truthy. -/
def recordNonEmpty (r : NamingBase) : Bool :=
  r.name ≠ "" || r.namespace_ ≠ [] || pyTruthyVersion r.version ||
    r.product_name ≠ "" || r.product_url ≠ ""

/-- Modelled from the spec: the distinct non-empty per-file metadata records
across the input files ("Collect the distinct non-empty such records across
all files (value equality, not identity)").  This is what the source's
collection loop was intended to compute. -/
def specNonEmptyMetadataRecords (files : List FileDescriptorProto) : List NamingBase :=
  pyDistinct ((files.map metadataRecord).filter recordNonEmpty)

/-- Two files whose packages agree only on the partial prefix `a.`. -/
def c4Files : List FileDescriptorProto := [mkFile "a.foo", mkFile "a.bar"]

/-- A single file whose package is `name.version` shaped. -/
def c10Files : List FileDescriptorProto := [mkFile "library.v1"]

/-- A single file whose package has namespace segments before name and
version. -/
def c10NsFiles : List FileDescriptorProto := [mkFile "google.example.library.v1"]

/-- An all-empty metadata record. -/
def emptySchemaMeta : Schema.Metadata :=
  { address := { package := [], module := "" }, doc := "" }

/-- A message wrapper whose address has the given package segments and
module. -/
def mkMsg (pkg : List String) (mod : String) : Schema.MessageType :=
  { message_pb := { name := "Msg" }
    fields := []
    meta := { address := { package := pkg, module := mod }, doc := "" } }

/-- A method whose http annotation carries the given GET, POST and body
values and whose request/response both live in the given message. -/
def mkHttpMethod (g p b : String) (msg : Schema.MessageType) : Schema.Method :=
  { method_pb := { name := "M", options := { http := { get := g, post := p, body := b } } }
    input := msg, output := msg, lro_payload := none, lro_metadata := none
    meta := emptySchemaMeta }

/-- Method with a GET binding holding one path-template variable. -/
def c5GetM : Schema.Method :=
  mkHttpMethod "/v1/\x7bparent=projects/*\x7d/items" "" "" (mkMsg ["pkg"] "m")

/-- Method with a GET binding holding no path-template variables. -/
def c5NoVarM : Schema.Method := mkHttpMethod "/v1/items" "" "" (mkMsg ["pkg"] "m")

/-- Method with only a POST binding (GET empty), with a body path. -/
def c5PostM : Schema.Method := mkHttpMethod "" "/v1/items" "*" (mkMsg ["pkg"] "m")

/-- Method with a GET binding holding a single-letter template variable. -/
def c5SingleM : Schema.Method := mkHttpMethod "/v1/\x7bp=ab\x7d/c" "" "" (mkMsg ["pkg"] "m")

/-- A service with two methods: the first references module `mod_b` of
package `pkg.b`, the second references module `mod_a` of package `pkg.a`,
declared in that order. -/
def c6Service : Schema.Service :=
  { service_pb := { name := "Svc", options := { default_host := "", oauth_scopes := [] } }
    methods := [("M1", mkHttpMethod "" "" "" (mkMsg ["pkg", "b"] "mod_b")),
                ("M2", mkHttpMethod "" "" "" (mkMsg ["pkg", "a"] "mod_a"))]
    meta := emptySchemaMeta }

/-- The same service with its two methods declared in the opposite order. -/
def c6ServiceRev : Schema.Service :=
  { service_pb := { name := "Svc", options := { default_host := "", oauth_scopes := [] } }
    methods := [("M2", mkHttpMethod "" "" "" (mkMsg ["pkg", "a"] "mod_a")),
                ("M1", mkHttpMethod "" "" "" (mkMsg ["pkg", "b"] "mod_b"))]
    meta := emptySchemaMeta }

/-- A service with an explicit default host. -/
def c7HostSvc : Schema.Service :=
  { service_pb := { name := "Svc", options := { default_host := "api.example.com", oauth_scopes := [] } }
    methods := [], meta := emptySchemaMeta }

/-- A service with no default-host annotation. -/
def c7NoHostSvc : Schema.Service :=
  { service_pb := { name := "Svc", options := { default_host := "", oauth_scopes := [] } }
    methods := [], meta := emptySchemaMeta }

/-! ## Claim theorems: C1, C2, C5, C7, C8, C9 and counterexamples -/

/-- C1 (code bug): the naming pass never produces a final identity at all —
at the concrete metadata-annotated input it raises the TypeError from
`os.path.commonprefix` on the set of packages (naming.py line 70), although
the class docstring promises an instance and only a ValueError.  The merge
step the claim describes (naming.py lines 122-130) is unreachable; taken by
itself it does implement exactly the claimed field-wise override rule, as
the second conjunct records. -/
theorem naming_metadata_override_bug :
    buildNaming c1Files = .error (.typeError setSubscriptMsg) ∧
    (∀ pkg m : NamingBase,
      (mergeNaming pkg m).name = (if m.name ≠ "" then m.name else pkg.name) ∧
      (mergeNaming pkg m).namespace_ =
        (if m.namespace_ ≠ [] then m.namespace_ else pkg.namespace_) ∧
      (mergeNaming pkg m).version =
        (if pyTruthyVersion m.version then m.version else pkg.version) ∧
      (mergeNaming pkg m).product_name =
        (if m.product_name ≠ "" then m.product_name else pkg.product_name) ∧
      (mergeNaming pkg m).product_url =
        (if m.product_url ≠ "" then m.product_url else pkg.product_url)) :=
  ⟨rfl, fun _ _ => ⟨rfl, rfl, rfl, rfl, rfl⟩⟩

/-- C2 (code bug): in `c2Files` exactly one distinct non-empty metadata
record exists (one file annotated, one file not), yet the naming pass does
not resolve successfully: it raises the TypeError from
`os.path.commonprefix` on the set of packages (naming.py line 70), before
the metadata loop ever runs.  Moreover the metadata collection itself, were
it reached, contradicts the claim: the filter `if naming:` tests a
`NamingBase` instance, which is always truthy (the bool dunder is defined on
`Naming`, not `NamingBase`, and is itself broken), so the all-empty record
of the unannotated file is also collected and the set has two elements where
only one distinct non-empty record exists. -/
theorem naming_metadata_conflict_bug :
    (specNonEmptyMetadataRecords c2Files).length = 1 ∧
    buildNaming c2Files = .error (.typeError setSubscriptMsg) ∧
    (collectMetadata c2Files).length = 2 :=
  ⟨rfl, rfl, rfl⟩

/-- C5 counterexample: a GET binding with the single-letter template
variable `p` yields no field headers under the source's pattern (which
requires at least one word-or-dot character after the leading lowercase
letter), while the claimed pattern with a star extracts `p`. -/
theorem field_headers_star_counterexample :
    Schema.Method.field_headers c5SingleM = [] ∧
    Schema.findHeadersClaimStar c5SingleM.method_pb.options.http.get.data = ["p"] ∧
    Schema.Method.field_headers c5SingleM ≠
      Schema.findHeadersClaimStar c5SingleM.method_pb.options.http.get.data :=
  ⟨rfl, rfl, by decide⟩

/-- C5 amended: field headers are extracted from the GET path with the
pattern requiring one lowercase letter followed by one or more word-or-dot
characters before `=`; the sequence is empty whenever the GET binding is
absent (empty), regardless of other bindings; the claim's concrete examples
hold, and a single-letter variable is not extracted. -/
theorem field_headers_plus_pattern :
    (∀ m : Schema.Method, m.method_pb.options.http.get = "" →
      Schema.Method.field_headers m = []) ∧
    (∀ m : Schema.Method, m.method_pb.options.http.get ≠ "" →
      Schema.Method.field_headers m = Schema.findHeaders m.method_pb.options.http.get.data) ∧
    Schema.Method.field_headers c5GetM = ["parent"] ∧
    Schema.Method.field_headers c5NoVarM = [] ∧
    Schema.Method.field_headers c5PostM = [] ∧
    Schema.Method.field_headers c5SingleM = [] := by
  refine ⟨?_, ?_, rfl, rfl, rfl, rfl⟩
  · intro m h; simp [Schema.Method.field_headers, h]
  · intro m h; simp [Schema.Method.field_headers, h]

/-- Witness for C5: the POST-only method has an empty GET binding and an
empty field-header sequence. -/
theorem field_headers_plus_pattern_witness :
    c5PostM.method_pb.options.http.get = "" ∧
    Schema.Method.field_headers c5PostM = [] :=
  ⟨rfl, field_headers_plus_pattern.1 c5PostM rfl⟩

/-- C7: the service host is the default-host annotation when that is
non-empty, and otherwise the placeholder, which is non-empty and contains
characters (space, angle bracket) that cannot occur in a real host; the
host is never the empty string. -/
theorem service_host_placeholder (s : Schema.Service) :
    (s.service_pb.options.default_host ≠ "" →
      Schema.Service.host s = s.service_pb.options.default_host) ∧
    (s.service_pb.options.default_host = "" →
      Schema.Service.host s = Schema.placeholderHost) ∧
    Schema.Service.host s ≠ "" ∧
    Schema.placeholderHost ≠ "" ∧
    '<' ∈ Schema.placeholderHost.data ∧ ' ' ∈ Schema.placeholderHost.data := by
  refine ⟨?_, ?_, ?_, by decide, by decide, by decide⟩
  · intro h; simp [Schema.Service.host, h]
  · intro h; simp [Schema.Service.host, h, Schema.placeholderHost]
  · by_cases h : s.service_pb.options.default_host = ""
    · have hp : Schema.Service.host s = Schema.placeholderHost := by
        simp [Schema.Service.host, h, Schema.placeholderHost]
      rw [hp]; decide
    · have hp : Schema.Service.host s = s.service_pb.options.default_host := by
        simp [Schema.Service.host, h]
      rw [hp]; exact h

/-- Witness for C7 at two concrete services: one with an explicit default
host, one with none. -/
theorem service_host_placeholder_witness :
    c7HostSvc.service_pb.options.default_host ≠ "" ∧
    Schema.Service.host c7HostSvc = "api.example.com" ∧
    c7NoHostSvc.service_pb.options.default_host = "" ∧
    Schema.Service.host c7NoHostSvc = Schema.placeholderHost :=
  ⟨by decide, (service_host_placeholder c7HostSvc).1 (by decide),
   rfl, (service_host_placeholder c7NoHostSvc).2.1 rfl⟩

/-- C8 (code bug): the truthiness test of a naming record never succeeds;
for every record it raises AttributeError, because the body calls `.keys()`
on the tuple returned by `dataclasses.fields`, and tuples have no such
attribute.  The intended result (some field truthy) is never computed. -/
theorem naming_bool_raises :
    (∀ n : NamingBase, namingPyBool n = .error (.attributeError "keys")) ∧
    namingPyBool c1Merged = .error (.attributeError "keys") :=
  ⟨fun _ => rfl, rfl⟩

/-- C9: wrapping is idempotent up to dataclass equality: constructing any of
the six entity wrappers twice from the same raw declaration and identical
metadata yields field-wise equal entities. -/
theorem wrapping_idempotent :
    (∀ pb meta, (Schema.wrapField pb meta).dcEq (Schema.wrapField pb meta) = true) ∧
    (∀ pb fields meta,
      (Schema.wrapMessageType pb fields meta).dcEq (Schema.wrapMessageType pb fields meta) = true) ∧
    (∀ pb meta,
      (Schema.wrapEnumValueType pb meta).dcEq (Schema.wrapEnumValueType pb meta) = true) ∧
    (∀ pb values meta,
      (Schema.wrapEnumType pb values meta).dcEq (Schema.wrapEnumType pb values meta) = true) ∧
    (∀ pb i o lp lm meta,
      (Schema.wrapMethod pb i o lp lm meta).dcEq (Schema.wrapMethod pb i o lp lm meta) = true) ∧
    (∀ pb methods meta,
      (Schema.wrapService pb methods meta).dcEq (Schema.wrapService pb methods meta) = true) := by
  refine ⟨?_, ?_, ?_, ?_, ?_, ?_⟩ <;> intros <;>
    simp [Schema.wrapField, Schema.Field.dcEq, Schema.wrapMessageType,
      Schema.MessageType.dcEq, Schema.wrapEnumValueType, Schema.EnumValueType.dcEq,
      Schema.wrapEnumType, Schema.EnumType.dcEq, Schema.wrapMethod, Schema.Method.dcEq,
      Schema.wrapService, Schema.Service.dcEq]

/-- C10 counterexample: at the single package `library.v1` the naming pass
does raise, but not for the reason the claim asserts.  The exception is the
TypeError from `os.path.commonprefix` on the set of packages (naming.py
line 70), raised before the regex and its namespace capture ever run — it is
not the AttributeError that an absent namespace capture would produce
(`None.split` / `None.groupdict`), and exactly the same exception occurs for
a package that does carry namespace segments (`google.example.library.v1`),
so the raising is unrelated to the namespace capture being absent. -/
theorem bare_name_version_counterexample :
    buildNaming c10Files = .error (.typeError setSubscriptMsg) ∧
    buildNaming c10NsFiles = .error (.typeError setSubscriptMsg) ∧
    PyErr.typeError setSubscriptMsg ≠ PyErr.attributeError "split" ∧
    PyErr.typeError setSubscriptMsg ≠ PyErr.attributeError "groupdict" :=
  ⟨rfl, rfl, by decide, by decide⟩

/-- C3 counterexample: at the packages `a.foobar` and `a.foobaz` the root
package computation does not yield `a` (nor any other string): passing the
set of packages to `os.path.commonprefix` raises TypeError. -/
theorem root_package_segment_counterexample :
    rootPackage [mkFile "a.foobar", mkFile "a.foobaz"] =
      .error (.typeError setSubscriptMsg) ∧
    rootPackage [mkFile "a.foobar", mkFile "a.foobaz"] ≠ .ok "a" :=
  ⟨rfl, fun h => Except.noConfusion
    ((rfl : rootPackage [mkFile "a.foobar", mkFile "a.foobaz"] =
        Except.error (.typeError setSubscriptMsg)).symm.trans h)⟩

/-! ## Order lemmas for the embedded Python string comparison -/

/-- Characterization of the character comparison. -/
theorem charLtb_iff (a b : Char) : charLtb a b = true ↔ a.toNat < b.toNat := by
  simp [charLtb, Nat.blt_eq]

/-- Characterization of the negated character comparison. -/
theorem charLtb_false_iff (a b : Char) : charLtb a b = false ↔ ¬ a.toNat < b.toNat := by
  rw [Bool.eq_false_iff]
  exact not_congr (charLtb_iff a b)

/-- Two characters with equal code points are equal. -/
theorem char_eq_of_toNat_eq {a b : Char} (h : a.toNat = b.toNat) : a = b :=
  Char.eq_of_val_eq (UInt32.ext h)

/-- The string comparison is irreflexive. -/
theorem strLtChars_irrefl : ∀ l : List Char, pyStrLtChars l l = false
  | [] => rfl
  | a :: as => by
      have ha : charLtb a a = false := (charLtb_false_iff a a).mpr (by omega)
      simp [pyStrLtChars, ha, strLtChars_irrefl as]

/-- The string comparison is asymmetric. -/
theorem strLtChars_asymm : ∀ {a b : List Char},
    pyStrLtChars a b = true → pyStrLtChars b a = false
  | [], [], h => by simp [pyStrLtChars] at h
  | [], _ :: _, _ => rfl
  | _ :: _, [], h => by simp [pyStrLtChars] at h
  | x :: as, y :: bs, h => by
      by_cases hxy : charLtb x y = true
      · have hyx : charLtb y x = false :=
          (charLtb_false_iff y x).mpr (by have := (charLtb_iff x y).mp hxy; omega)
        simp [pyStrLtChars, hyx, hxy]
      · rw [Bool.not_eq_true] at hxy
        by_cases hyx : charLtb y x = true
        · simp [pyStrLtChars, hxy, hyx] at h
        · rw [Bool.not_eq_true] at hyx
          simp only [pyStrLtChars, hxy, hyx, if_false] at h
          simp [pyStrLtChars, hxy, hyx, strLtChars_asymm h]

/-- The string comparison is connex: two incomparable lists are equal. -/
theorem strLtChars_connex : ∀ {a b : List Char},
    pyStrLtChars a b = false → pyStrLtChars b a = false → a = b
  | [], [], _, _ => rfl
  | [], _ :: _, h, _ => by simp [pyStrLtChars] at h
  | _ :: _, [], _, h => by simp [pyStrLtChars] at h
  | x :: as, y :: bs, h, h' => by
      by_cases hxy : charLtb x y = true
      · simp [pyStrLtChars, hxy] at h
      · rw [Bool.not_eq_true] at hxy
        by_cases hyx : charLtb y x = true
        · simp [pyStrLtChars, hyx] at h'
        · rw [Bool.not_eq_true] at hyx
          simp only [pyStrLtChars, hxy, hyx, if_false] at h h'
          have hxy' : x = y := char_eq_of_toNat_eq (by
            have h1 := (charLtb_false_iff x y).mp hxy
            have h2 := (charLtb_false_iff y x).mp hyx
            omega)
          rw [hxy', strLtChars_connex h h']

/-- The string comparison is transitive. -/
theorem strLtChars_trans : ∀ {a b c : List Char},
    pyStrLtChars a b = true → pyStrLtChars b c = true → pyStrLtChars a c = true
  | [], _, c, _, h2 => by
      cases c with
      | nil =>
          cases ‹List Char› with
          | nil => simp [pyStrLtChars] at h2
          | cons y bs => simp [pyStrLtChars] at h2
      | cons z cs => rfl
  | _ :: _, [], _, h1, _ => by simp [pyStrLtChars] at h1
  | x :: as, y :: bs, c, h1, h2 => by
      cases c with
      | nil => simp [pyStrLtChars] at h2
      | cons z cs =>
          by_cases hxy : charLtb x y = true
          · by_cases hyz : charLtb y z = true
            · have hxz : charLtb x z = true := (charLtb_iff x z).mpr (by
                have := (charLtb_iff x y).mp hxy
                have := (charLtb_iff y z).mp hyz
                omega)
              simp [pyStrLtChars, hxz]
            · rw [Bool.not_eq_true] at hyz
              by_cases hzy : charLtb z y = true
              · simp [pyStrLtChars, hyz, hzy] at h2
              · rw [Bool.not_eq_true] at hzy
                have hyz' : y = z := char_eq_of_toNat_eq (by
                  have := (charLtb_false_iff y z).mp hyz
                  have := (charLtb_false_iff z y).mp hzy
                  omega)
                subst hyz'
                simp [pyStrLtChars, hxy]
          · rw [Bool.not_eq_true] at hxy
            by_cases hyx : charLtb y x = true
            · simp [pyStrLtChars, hxy, hyx] at h1
            · rw [Bool.not_eq_true] at hyx
              have hxy' : x = y := char_eq_of_toNat_eq (by
                have := (charLtb_false_iff x y).mp hxy
                have := (charLtb_false_iff y x).mp hyx
                omega)
              subst hxy'
              by_cases hyz : charLtb x z = true
              · simp [pyStrLtChars, hyz]
              · rw [Bool.not_eq_true] at hyz
                by_cases hzy : charLtb z x = true
                · simp [pyStrLtChars, hyz, hzy] at h2
                · rw [Bool.not_eq_true] at hzy
                  simp only [pyStrLtChars, hxy, hyx, if_false] at h1
                  simp only [pyStrLtChars, hyz, hzy, if_false] at h2
                  simp [pyStrLtChars, hyz, hzy, strLtChars_trans h1 h2]

/-! ## Failure of the naming pass on every non-empty input

The call `os.path.commonprefix(proto_packages)` at naming.py line 70 passes
a set, which raises TypeError on every interpreter able to run this file;
everything after line 70 is unreachable for a non-empty input. -/

/-- Folding set-insertions over a non-empty accumulator stays non-empty. -/
theorem pyDistinct_foldl_ne_nil {α : Type} [DecidableEq α] :
    ∀ (l : List α) (acc : List α), acc ≠ [] →
      l.foldl (fun acc x => if x ∈ acc then acc else acc ++ [x]) acc ≠ []
  | [], _, h => h
  | x :: xs, acc, h => by
      simp only [List.foldl_cons]
      apply pyDistinct_foldl_ne_nil
      by_cases hx : x ∈ acc
      · rw [if_pos hx]
        exact h
      · rw [if_neg hx]
        simp

/-- A non-empty file list has a non-empty set of distinct packages. -/
theorem distinctPackages_ne_nil {files : List FileDescriptorProto}
    (h : files ≠ []) : distinctPackages files ≠ [] := by
  cases files with
  | nil => exact absurd rfl h
  | cons f fs =>
      unfold distinctPackages pyDistinct
      simp only [List.map_cons, List.foldl_cons]
      apply pyDistinct_foldl_ne_nil
      simp

/-- For every non-empty input, the naming pass raises the TypeError from
`os.path.commonprefix` on the set of proto packages. -/
theorem buildNaming_typeError (files : List FileDescriptorProto)
    (h : distinctPackages files ≠ []) :
    buildNaming files = .error (.typeError setSubscriptMsg) := by
  have hc : pyCommonPfx (distinctPackages files) =
      Except.error (.typeError setSubscriptMsg) := by
    unfold pyCommonPfx
    rw [if_neg h]
  simp only [buildNaming]
  rw [hc]

/-- C4: if no version segment is matched in the common package prefix and
more than one distinct package path exists, the naming pass raises an error
(so no entity is ever built from its output); if exactly one distinct
package path exists, the pass never raises the ambiguous-version
ValueError.  Both halves hold degenerately: the TypeError from
`os.path.commonprefix` on the set of packages is raised for every non-empty
input, before the version check, so the ambiguous-version ValueError itself
is unreachable. -/
theorem ambiguous_version_failure (files : List FileDescriptorProto)
    (hnov : ∀ r, rootPackage files = Except.ok r →
      pyTruthyVersion ((reSearchNaming r).bind ReMatch.versionGrp) = false) :
    ((distinctPackages files).length > 1 → ∃ e, buildNaming files = Except.error e) ∧
    ((distinctPackages files).length = 1 →
      buildNaming files ≠ Except.error (.valueError ambiguousMsg)) := by
  constructor
  · intro hlen
    have hne : distinctPackages files ≠ [] := by
      intro hnil
      rw [hnil] at hlen
      simp at hlen
    exact ⟨.typeError setSubscriptMsg, buildNaming_typeError files hne⟩
  · intro hlen hcontra
    have hne : distinctPackages files ≠ [] := by
      intro hnil
      rw [hnil] at hlen
      simp at hlen
    rw [buildNaming_typeError files hne] at hcontra
    exact PyErr.noConfusion (Except.error.inj hcontra)

/-- Witness for C4 at the concrete input `a.foo`, `a.bar`: no root package
is ever computed (so no version segment is matched), two distinct packages
exist, and the pass fails. -/
theorem ambiguous_version_failure_witness :
    (∀ r, rootPackage c4Files = Except.ok r →
      pyTruthyVersion ((reSearchNaming r).bind ReMatch.versionGrp) = false) ∧
    (distinctPackages c4Files).length > 1 ∧
    (∃ e, buildNaming c4Files = Except.error e) := by
  have hvac : ∀ r, rootPackage c4Files = Except.ok r →
      pyTruthyVersion ((reSearchNaming r).bind ReMatch.versionGrp) = false := by
    intro r h
    exact Except.noConfusion
      ((rfl : rootPackage c4Files = Except.error (.typeError setSubscriptMsg)).symm.trans h)
  exact ⟨hvac, by decide, (ambiguous_version_failure c4Files hvac).1 (by decide)⟩

/-- C3 amended: the program never computes a root package at all.  For
every non-empty input file set, `os.path.commonprefix` on the set of
distinct packages raises TypeError; for an empty input it returns the empty
string. -/
theorem root_package_never_computed (files : List FileDescriptorProto) :
    (files ≠ [] → rootPackage files = Except.error (.typeError setSubscriptMsg)) ∧
    (files = [] → rootPackage files = Except.ok "") := by
  constructor
  · intro h
    unfold rootPackage pyCommonPfx
    rw [if_neg (distinctPackages_ne_nil h)]
  · intro h
    subst h
    rfl

/-- Witness for the amended C3 at a concrete non-empty input and at the
empty input. -/
theorem root_package_never_computed_witness :
    ([mkFile "a.b"] : List FileDescriptorProto) ≠ [] ∧
    rootPackage [mkFile "a.b"] = Except.error (.typeError setSubscriptMsg) ∧
    ([] : List FileDescriptorProto) = [] ∧
    rootPackage ([] : List FileDescriptorProto) = Except.ok "" :=
  ⟨by simp, (root_package_never_computed [mkFile "a.b"]).1 (by simp),
   rfl, (root_package_never_computed ([] : List FileDescriptorProto)).2 rfl⟩

/-- C10 amended: for every non-empty input file set — in particular one
whose package is a bare `name` or `name.version` such as `library.v1` —
Naming construction raises an exception instead of producing an identity;
the exception is the TypeError from `os.path.commonprefix` receiving the
set of proto packages (naming.py line 70), raised before the namespace
capture is ever attempted, not a consequence of the namespace capture being
absent. -/
theorem naming_always_raises (files : List FileDescriptorProto)
    (h : files ≠ []) :
    buildNaming files = Except.error (.typeError setSubscriptMsg) ∧
    ∀ n, buildNaming files ≠ Except.ok n := by
  have he := buildNaming_typeError files (distinctPackages_ne_nil h)
  refine ⟨he, ?_⟩
  intro n hn
  rw [he] at hn
  exact Except.noConfusion hn

/-- Witness for the amended C10 at the concrete package `library.v1`. -/
theorem naming_always_raises_witness :
    c10Files ≠ [] ∧
    buildNaming c10Files = Except.error (.typeError setSubscriptMsg) :=
  ⟨by simp [c10Files], (naming_always_raises c10Files (by simp [c10Files])).1⟩

/-! ## C6: pb2_modules is the sorted deduplicated pair set -/

namespace Schema

/-- The pair ordering as a relation (for `List.Pairwise`). -/
def pairLtP (a b : String × String) : Prop := pairLt a b = true

/-- The pair ordering is irreflexive. -/
theorem pairLt_irrefl (a : String × String) : pairLt a a = false := by
  have h1 : pyStrLt a.1 a.1 = false := strLtChars_irrefl _
  have h2 : pyStrLt a.2 a.2 = false := strLtChars_irrefl _
  simp [pairLt, h1, h2]

/-- The pair ordering is asymmetric. -/
theorem pairLt_asymm {a b : String × String} (h : pairLt a b = true) :
    pairLt b a = false := by
  simp only [pairLt, Bool.or_eq_true, Bool.and_eq_true, beq_iff_eq] at h
  rcases h with h | ⟨he, h⟩
  · have h1 : pyStrLt b.1 a.1 = false := strLtChars_asymm h
    have h2 : (b.1 == a.1) = false := by
      rw [beq_eq_false_iff_ne]
      intro he
      rw [he] at h
      have hirr : pyStrLt a.1 a.1 = false := strLtChars_irrefl _
      rw [h] at hirr
      exact Bool.noConfusion hirr
    simp [pairLt, h1, h2]
  · have h1 : pyStrLt b.1 a.1 = false := by
      rw [← he]
      exact strLtChars_irrefl _
    have h2 : pyStrLt b.2 a.2 = false := strLtChars_asymm h
    simp [pairLt, h1, h2]

/-- The pair ordering is transitive. -/
theorem pairLt_trans {a b c : String × String} (h1 : pairLt a b = true)
    (h2 : pairLt b c = true) : pairLt a c = true := by
  simp only [pairLt, Bool.or_eq_true, Bool.and_eq_true, beq_iff_eq] at h1 h2 ⊢
  rcases h1 with h1 | ⟨he1, h1⟩
  · rcases h2 with h2 | ⟨he2, h2⟩
    · exact Or.inl (strLtChars_trans h1 h2)
    · rw [he2] at h1
      exact Or.inl h1
  · rcases h2 with h2 | ⟨he2, h2⟩
    · rw [← he1] at h2
      exact Or.inl h2
    · exact Or.inr ⟨he1.trans he2, strLtChars_trans h1 h2⟩

/-- Two pairs neither of which is below the other are equal. -/
theorem pairLt_total {a b : String × String} (h1 : pairLt a b = false)
    (h2 : pairLt b a = false) : a = b := by
  have hs1 : pyStrLt a.1 b.1 = false := by
    cases hx : pyStrLt a.1 b.1
    · rfl
    · exfalso; simp [pairLt, hx] at h1
  have hs1' : pyStrLt b.1 a.1 = false := by
    cases hx : pyStrLt b.1 a.1
    · rfl
    · exfalso; simp [pairLt, hx] at h2
  have he1 : a.1 = b.1 := congrArg String.mk (strLtChars_connex hs1 hs1')
  have hs2 : pyStrLt a.2 b.2 = false := by
    cases hx : pyStrLt a.2 b.2
    · rfl
    · exfalso; simp [pairLt, hx, he1] at h1
  have hs2' : pyStrLt b.2 a.2 = false := by
    cases hx : pyStrLt b.2 a.2
    · rfl
    · exfalso; simp [pairLt, hx, he1.symm] at h2
  have he2 : a.2 = b.2 := congrArg String.mk (strLtChars_connex hs2 hs2')
  exact Prod.ext he1 he2

/-- Membership in an insertion. -/
theorem mem_insertPair (x a : String × String) :
    ∀ l, a ∈ insertPair x l ↔ a = x ∨ a ∈ l
  | [] => by simp [insertPair]
  | y :: ys => by
      unfold insertPair
      by_cases h1 : pairLt x y = true
      · rw [if_pos h1]
        simp [List.mem_cons]
      · rw [if_neg h1]
        by_cases h2 : x = y
        · rw [if_pos h2]
          subst h2
          simp [List.mem_cons]
        · rw [if_neg h2]
          simp only [List.mem_cons, mem_insertPair x a ys]
          tauto

/-- Insertion preserves strict sortedness. -/
theorem pairwise_insertPair {x : String × String} :
    ∀ {l}, List.Pairwise pairLtP l → List.Pairwise pairLtP (insertPair x l)
  | [], _ => by simp [insertPair, pairLtP]
  | y :: ys, h => by
      rw [List.pairwise_cons] at h
      obtain ⟨hy, hys⟩ := h
      unfold insertPair
      by_cases h1 : pairLt x y = true
      · rw [if_pos h1]
        refine List.Pairwise.cons ?_ (List.Pairwise.cons hy hys)
        intro z hz
        rcases List.mem_cons.mp hz with rfl | hz
        · exact h1
        · exact pairLt_trans h1 (hy z hz)
      · rw [if_neg h1]
        by_cases h2 : x = y
        · rw [if_pos h2]
          exact List.Pairwise.cons hy hys
        · rw [if_neg h2]
          have hxy : pairLt x y = false := by
            cases hx : pairLt x y
            · rfl
            · exact absurd hx h1
          have hyx : pairLt y x = true := by
            cases hx : pairLt y x
            · exact absurd (pairLt_total hxy hx) h2
            · rfl
          refine List.Pairwise.cons ?_ (pairwise_insertPair hys)
          intro z hz
          rcases (mem_insertPair x z ys).mp hz with rfl | hz
          · exact hyx
          · exact hy z hz

/-- Folding insertions preserves sortedness. -/
theorem sortedSetGo_pairwise : ∀ (l : List (String × String)) (acc),
    List.Pairwise pairLtP acc →
    List.Pairwise pairLtP (l.foldl (fun acc x => insertPair x acc) acc)
  | [], _, h => h
  | _ :: xs, _, h => sortedSetGo_pairwise xs _ (pairwise_insertPair h)

/-- Membership after folding insertions. -/
theorem sortedSetGo_mem : ∀ (l : List (String × String)) (acc) (a),
    a ∈ l.foldl (fun acc x => insertPair x acc) acc ↔ a ∈ l ∨ a ∈ acc
  | [], acc, a => by simp
  | x :: xs, acc, a => by
      simp only [List.foldl_cons]
      rw [sortedSetGo_mem xs _ a]
      rw [mem_insertPair]
      simp only [List.mem_cons]
      tauto

/-- The sorted set of a list is strictly sorted. -/
theorem pySortedSet_pairwise (l : List (String × String)) :
    List.Pairwise pairLtP (pySortedSet l) :=
  sortedSetGo_pairwise l [] List.Pairwise.nil

/-- The sorted set of a list has the same members as the list. -/
theorem pySortedSet_mem (l : List (String × String)) (a : String × String) :
    a ∈ pySortedSet l ↔ a ∈ l := by
  unfold pySortedSet
  rw [sortedSetGo_mem]
  simp

/-- Two strictly sorted lists with the same members are equal. -/
theorem sorted_ext : ∀ (l₁ l₂ : List (String × String)),
    List.Pairwise pairLtP l₁ → List.Pairwise pairLtP l₂ →
    (∀ a, a ∈ l₁ ↔ a ∈ l₂) → l₁ = l₂
  | [], [], _, _, _ => rfl
  | [], b :: bs, _, _, hm => by
      have := (hm b).mpr (List.mem_cons_self b bs)
      simp at this
  | a :: as, [], _, _, hm => by
      have := (hm a).mp (List.mem_cons_self a as)
      simp at this
  | a :: as, b :: bs, h1, h2, hm => by
      rw [List.pairwise_cons] at h1 h2
      obtain ⟨ha, has⟩ := h1
      obtain ⟨hb, hbs⟩ := h2
      have hab : a = b := by
        have hmemA : a ∈ b :: bs := (hm a).mp (List.mem_cons_self a as)
        have hmemB : b ∈ a :: as := (hm b).mpr (List.mem_cons_self b bs)
        rcases List.mem_cons.mp hmemA with h | hA
        · exact h
        · rcases List.mem_cons.mp hmemB with h' | hB
          · exact h'.symm
          · have h3 : pairLt b a = true := hb a hA
            have h4 : pairLt a b = true := ha b hB
            rw [pairLt_asymm h4] at h3
            exact Bool.noConfusion h3
      subst hab
      congr 1
      apply sorted_ext as bs has hbs
      intro c
      constructor
      · intro hc
        have habc : pairLt a c = true := ha c hc
        have hmem : c ∈ a :: bs := (hm c).mp (List.mem_cons_of_mem a hc)
        rcases List.mem_cons.mp hmem with rfl | h
        · rw [pairLt_irrefl] at habc
          exact Bool.noConfusion habc
        · exact h
      · intro hc
        have habc : pairLt a c = true := hb c hc
        have hmem : c ∈ a :: as := (hm c).mpr (List.mem_cons_of_mem a hc)
        rcases List.mem_cons.mp hmem with rfl | h
        · rw [pairLt_irrefl] at habc
          exact Bool.noConfusion habc
        · exact h

/-- Membership equality test implies membership equivalence. -/
theorem listEqMem_iff {l₁ l₂ : List (String × String)}
    (h : listEqMem l₁ l₂ = true) : ∀ a, (a ∈ l₁ ↔ a ∈ l₂) := by
  intro a
  simp only [listEqMem, Bool.and_eq_true, List.all_eq_true, decide_eq_true_eq] at h
  exact ⟨fun ha => h.1 a ha, fun ha => h.2 a ha⟩

/-- C6: pb2_modules is strictly ascending by package then module (hence
duplicate-free), contains exactly the (package, pb2 module) pairs collected
from every method's request, response and present lro payload/metadata
messages, is determined by the member set alone (so independent of method
declaration order), and the concrete two-method example sorts as claimed
regardless of declaration order. -/
theorem pb2_modules_sorted :
    (∀ s : Schema.Service, List.Pairwise pairLtP (Schema.Service.pb2_modules s)) ∧
    (∀ s : Schema.Service, ∀ p,
      p ∈ Schema.Service.pb2_modules s ↔ p ∈ Schema.Service.collectedPairs s) ∧
    (∀ s t : Schema.Service,
      listEqMem (Schema.Service.collectedPairs s) (Schema.Service.collectedPairs t) = true →
      Schema.Service.pb2_modules s = Schema.Service.pb2_modules t) ∧
    Schema.Service.pb2_modules c6Service = [("pkg.a", "mod_a_pb2"), ("pkg.b", "mod_b_pb2")] ∧
    Schema.Service.pb2_modules c6ServiceRev = [("pkg.a", "mod_a_pb2"), ("pkg.b", "mod_b_pb2")] := by
  refine ⟨fun s => pySortedSet_pairwise _, fun s p => pySortedSet_mem _ _, ?_, rfl, rfl⟩
  intro s t h
  apply sorted_ext _ _ (pySortedSet_pairwise _) (pySortedSet_pairwise _)
  intro a
  show a ∈ pySortedSet (Schema.Service.collectedPairs s) ↔
    a ∈ pySortedSet (Schema.Service.collectedPairs t)
  rw [pySortedSet_mem, pySortedSet_mem]
  exact listEqMem_iff h a

/-- Witness for C6: the two concrete services with opposite method
declaration order have membership-equal collected pairs and identical
pb2_modules output. -/
theorem pb2_modules_sorted_witness :
    listEqMem (Schema.Service.collectedPairs c6Service)
      (Schema.Service.collectedPairs c6ServiceRev) = true ∧
    Schema.Service.pb2_modules c6Service = Schema.Service.pb2_modules c6ServiceRev :=
  ⟨by decide, pb2_modules_sorted.2.2.1 c6Service c6ServiceRev (by decide)⟩

end Schema
